import Mathlib

/-!
Verification of the preference-driven matching engine of the
job-matching backend.

The Lean definitions below are a shallow embedding of the Python
sources:

* `app/services/conversation_storage.py` (`ConversationStorage`):
  the file-backed conversation store, modelled as an association
  list from file names to conversation records, with an explicit
  fault parameter standing for an I/O exception raised by the
  file-system calls.
* `app/services/openai_service.py` (`OpenAIService`): the embedding
  and query-building logic; the external OpenAI client is modelled
  as an oracle function returning `Except`.
* `app/api/endpoints/conversation.py` (`chat`,
  `_extract_and_search_jobs`, `_search_jobs_by_preferences`): the
  conversation turn handler, with the provider calls as oracles and
  an `Except` result standing for the HTTP 500 path of the outer
  `except` clause.
* `app/services/vector_search.py` (`VectorSearchService`), whose
  source file is not part of the repository snapshot (only its
  callers are): `weighted_search` and its exclusion filter are
  modelled from the specification, see the doc comments below.

Strings are Lean `String`s; Python truthiness of optional / list /
string values is translated explicitly at each use site.  Embedding
vectors are `List ℚ` (the only float value the verified code paths
ever construct is the constant `0.0`, which is exact).
-/

namespace JobMatching

/-- One entry of a conversation transcript: a `{"role": ..., "content": ...}`
dictionary in the Python sources. -/
structure ChatMessage where
  role : String
  content : String
deriving DecidableEq, Repr

/-- Errors of the service layer (`app/core/exceptions.py`), together with a
constructor for arbitrary Python exceptions (`OSError` etc.) that are not
`JobMatchingException`s. -/
inductive ServiceErr where
  | openAIErr (msg : String)
  | storageErr (msg : String)
  | notFoundErr (msg : String)
  | otherErr (msg : String)
deriving DecidableEq, Repr

/-- Lower-case the characters of a string (the model of Python
`str.lower()` used by case-insensitive matching). -/
def lowerChars (s : String) : List Char :=
  s.data.map Char.toLower

/-- `containsRun xs ys` is true iff `xs` occurs as a contiguous run inside
`ys`: the model of Python's `needle in haystack` on strings. -/
def containsRun (xs : List Char) : List Char → Bool
  | [] => xs.isEmpty
  | c :: tl => xs.isPrefixOf (c :: tl) || containsRun xs tl

/-- Case-insensitive substring test: `needle.lower() in haystack.lower()`. -/
def containsCI (haystack needle : String) : Bool :=
  containsRun (lowerChars needle) (lowerChars haystack)

/-- Python truthiness of a string value. -/
def truthyStr (s : String) : Bool :=
  !(s = "")

/-- Python truthiness of an optional string (JSON `null` ↦ `none`). -/
def truthyStrOpt : Option String → Bool
  | none => false
  | some s => truthyStr s

/-- Python truthiness of an optional number (JSON `null` ↦ `none`). -/
def truthyIntOpt : Option Int → Bool
  | none => false
  | some n => !(n = 0)

/-- Insert into a sorted list: `insertLE le x l` places `x` before the
first element `y` with `le x y`. -/
def insertLE {α : Type} (le : α → α → Bool) (x : α) : List α → List α
  | [] => [x]
  | y :: ys => if le x y then x :: y :: ys else y :: insertLE le x ys

/-- Insertion sort with a boolean comparison, the model of Python's
`list.sort(key=...)`; only the membership behaviour of the sort is used
by the proofs below. -/
def sortLE {α : Type} (le : α → α → Bool) : List α → List α
  | [] => []
  | x :: xs => insertLE le x (sortLE le xs)

/-- A preference profile as produced by `extract_job_preferences`
(`app/services/openai_service.py`): inclusion facets first, then the four
exclusion facets.  JSON `null` is modelled as `none` for scalar facets
and as `[]` for list facets (both are falsy in the Python sources, which
only ever test them with `preferences.get(...)`). -/
structure Preferences where
  location : List String := []
  salary_min : Option Int := none
  salary_max : Option Int := none
  employment_types : List String := []
  remote_work : Option Bool := none
  job_categories : List String := []
  skills : List String := []
  tech_stack : List String := []
  industry : List String := []
  company_size : Option String := none
  work_style_preferences : List String := []
  career_goals : Option String := none
  priorities : List String := []
  experience_years : Option Int := none
  excluded_job_categories : List String := []
  excluded_skills : List String := []
  excluded_industries : List String := []
  excluded_company_types : List String := []
deriving DecidableEq, Repr

/-- Replace the four exclusion facets of a profile (used to state that the
query text ignores them). -/
def setExclusions (p : Preferences) (e1 e2 e3 e4 : List String) : Preferences :=
  { p with
    excluded_job_categories := e1
    excluded_skills := e2
    excluded_industries := e3
    excluded_company_types := e4 }

namespace OpenAIService

/-- `OpenAIService.create_embedding` (`app/services/openai_service.py`,
lines 29-57).  `provider` is the external call
`client.embeddings.create(...)`; `embedding_dimension` is
`settings.openai_embedding_dimension`.  A text that is empty or
whitespace-only (`not text or not text.strip()`) is answered with a zero
vector of the configured dimension without consulting the provider; any
provider failure is re-raised as `OpenAIError`. -/
def create_embedding (provider : String → Except ServiceErr (List ℚ))
    (embedding_dimension : Nat) (text : String) : Except ServiceErr (List ℚ) :=
  if text.data.all Char.isWhitespace then
    Except.ok (List.replicate embedding_dimension 0)
  else
    match provider text with
    | Except.ok v => Except.ok v
    | Except.error _ => Except.error (ServiceErr.openAIErr "Failed to create embedding")

/-- The `query_parts` list built by
`OpenAIService.create_search_query_embedding`
(`app/services/openai_service.py`, lines 223-271), translated append by
append: each `if preferences.get(...)` guard becomes the corresponding
truthiness test, and the high-priority facets append a labelled fragment
followed by a raw duplicate. -/
def create_search_query_parts (p : Preferences) : List String :=
  let query_parts : List String := []
  let query_parts := if !p.job_categories.isEmpty then
    let categories := String.intercalate ", " p.job_categories
    query_parts ++ ["職種: " ++ categories, categories]
  else query_parts
  let query_parts := if !p.tech_stack.isEmpty then
    let tech := String.intercalate ", " p.tech_stack
    query_parts ++ ["技術: " ++ tech, tech]
  else query_parts
  let query_parts := if !p.skills.isEmpty then
    let skills := String.intercalate ", " p.skills
    query_parts ++ ["スキル: " ++ skills, skills]
  else query_parts
  let query_parts := if !p.industry.isEmpty then
    query_parts ++ ["業界: " ++ String.intercalate ", " p.industry]
  else query_parts
  let query_parts := if truthyStrOpt p.career_goals then
    query_parts ++ ["目標: " ++ p.career_goals.getD ""]
  else query_parts
  let query_parts := if !p.work_style_preferences.isEmpty then
    query_parts ++ ["働き方: " ++ String.intercalate ", " p.work_style_preferences]
  else query_parts
  let query_parts := if !p.location.isEmpty then
    query_parts ++ ["勤務地: " ++ String.intercalate ", " p.location]
  else query_parts
  let query_parts := if truthyStrOpt p.company_size then
    query_parts ++ ["企業規模: " ++ p.company_size.getD ""]
  else query_parts
  let query_parts := if truthyIntOpt p.experience_years then
    query_parts ++ [toString (p.experience_years.getD 0) ++ "年の経験"]
  else query_parts
  query_parts

/-- The `query_text` of `create_search_query_embedding`
(`app/services/openai_service.py`, lines 273-276): the parts joined with
a space, with the fixed fallback `"求人検索"` when the join is empty. -/
def create_search_query_text (p : Preferences) : String :=
  let query_text := String.intercalate " " (create_search_query_parts p)
  if query_text = "" then "求人検索" else query_text

/-- `OpenAIService.create_search_query_embedding`
(`app/services/openai_service.py`, lines 211-284): embed the query text
built from the profile. -/
def create_search_query_embedding (provider : String → Except ServiceErr (List ℚ))
    (embedding_dimension : Nat) (p : Preferences) : Except ServiceErr (List ℚ) :=
  create_embedding provider embedding_dimension (create_search_query_text p)

end OpenAIService

/-- The fragment block a truthy list facet contributes, written after the
specification of the Query Vectorizer (§4.3): a labelled fragment,
duplicated in raw form when the facet is high priority. -/
def specListBlock (label : String) (dup : Bool) (facet : List String) : List String :=
  if facet.isEmpty then []
  else if dup then [label ++ String.intercalate ", " facet, String.intercalate ", " facet]
  else [label ++ String.intercalate ", " facet]

/-- The fragment block of an optional scalar facet (spec §4.3). -/
def specOptBlock (label : String) (facet : Option String) : List String :=
  match facet with
  | none => []
  | some s => if s = "" then [] else [label ++ s]

/-- The fragment block of the experience-years facet (spec §4.3). -/
def specExpBlock (facet : Option Int) : List String :=
  match facet with
  | none => []
  | some n => if n = 0 then [] else [toString n ++ "年の経験"]

/-- The fragment list prescribed by spec §4.3 for the Query Vectorizer:
inclusion facets only, in the fixed priority order job categories, tech
stack, skills, industry, career goal, work style, location, company
size, experience years, with the first three duplicated. -/
def specQueryFragments (p : Preferences) : List String :=
  specListBlock "職種: " true p.job_categories
    ++ specListBlock "技術: " true p.tech_stack
    ++ specListBlock "スキル: " true p.skills
    ++ specListBlock "業界: " false p.industry
    ++ specOptBlock "目標: " p.career_goals
    ++ specListBlock "働き方: " false p.work_style_preferences
    ++ specListBlock "勤務地: " false p.location
    ++ specOptBlock "企業規模: " p.company_size
    ++ specExpBlock p.experience_years

namespace ConversationStorage

/-- The metadata dictionary passed to `save_conversation`; the only key
the sources ever put in it is `created_at` (which itself may be absent). -/
structure MetaD where
  created_at : Option String
deriving DecidableEq, Repr

/-- One conversation file as written by
`ConversationStorage.save_conversation`: the `conversation_data`
dictionary of `app/services/conversation_storage.py`, lines 52-59
(the `metadata` sub-dictionary is kept through `created_at`). -/
structure Conversation where
  user_id : String
  conversation_id : String
  messages : List ChatMessage
  created_at : Option String
  updated_at : String
deriving DecidableEq, Repr

/-- The conversation file name `f"{user_id}_{conversation_id}.json"`. -/
def convFileName (user_id conversation_id : String) : String :=
  user_id ++ "_" ++ conversation_id ++ ".json"

/-- The conversations directory, modelled as an association list from
file names to parsed file contents. -/
abbrev FileStore := List (String × Conversation)

/-- Look a file up in the store. -/
def lookupFile : FileStore → String → Option Conversation
  | [], _ => none
  | (p, c) :: rest, path => if p = path then some c else lookupFile rest path

/-- Write (create or overwrite) a file in the store. -/
def writeFile : FileStore → String → Conversation → FileStore
  | [], path, c => [(path, c)]
  | (p, c0) :: rest, path, c =>
    if p = path then (path, c) :: rest else (p, c0) :: writeFile rest path c

/-- Remove a file from the store. -/
def removeFile (store : FileStore) (path : String) : FileStore :=
  store.filter (fun e => !(e.1 = path))

/-- `ConversationStorage.save_conversation`
(`app/services/conversation_storage.py`, lines 35-70).  `ioFault` is
`some e` when the file write raises the exception `e`; the `except`
clause logs and re-raises it, so the model surfaces it unchanged.  On
success the conversation file is created or overwritten, with
`created_at` taken from the metadata when one is passed and from the
clock (`now`) otherwise. -/
def save_conversation (ioFault : Option ServiceErr) (store : FileStore)
    (user_id conversation_id : String) (messages : List ChatMessage)
    (metadata : Option MetaD) (now : String) : Except ServiceErr FileStore :=
  match ioFault with
  | some e => Except.error e
  | none =>
    let conversation_data : Conversation :=
      { user_id := user_id
        conversation_id := conversation_id
        messages := messages
        created_at := match metadata with
          | some m => m.created_at
          | none => some now
        updated_at := now }
    Except.ok (writeFile store (convFileName user_id conversation_id) conversation_data)

/-- `ConversationStorage.load_conversation`
(`app/services/conversation_storage.py`, lines 72-98).  `ioFault = true`
means some file-system call raised; the `except` clause logs the error
and returns `None`, exactly as for an absent file. -/
def load_conversation (ioFault : Bool) (store : FileStore)
    (user_id conversation_id : String) : Option Conversation :=
  if ioFault then none
  else lookupFile store (convFileName user_id conversation_id)

/-- `updated_at`-descending comparison used by the `conversations.sort`
call of `get_user_conversations` (stable, `reverse=True`). -/
def updatedDescLE (a b : Conversation) : Bool :=
  b.updated_at ≤ a.updated_at

/-- `ConversationStorage.get_user_conversations`
(`app/services/conversation_storage.py`, lines 100-128): collect every
file matching the glob `f"{user_id}_*.json"`, sorted by `updated_at`
descending; any raised exception is logged and answered with the empty
list. -/
def get_user_conversations (ioFault : Bool) (store : FileStore)
    (user_id : String) : List Conversation :=
  if ioFault then []
  else
    sortLE updatedDescLE
      ((store.filter (fun e =>
        (user_id ++ "_").data.isPrefixOf e.1.data
          && ".json".data.reverse.isPrefixOf e.1.data.reverse)).map Prod.snd)

/-- `ConversationStorage.delete_conversation`
(`app/services/conversation_storage.py`, lines 130-153): `True` with the
file removed when it existed and the unlink went through; `False` (store
unchanged) when the file does not exist, and also when a file-system
call raises (the `except` clause logs and returns `False`); the method
never lets an exception escape. -/
def delete_conversation (ioFault : Bool) (store : FileStore)
    (user_id conversation_id : String) : Bool × FileStore :=
  if ioFault then (false, store)
  else
    match lookupFile store (convFileName user_id conversation_id) with
    | some _ => (true, removeFile store (convFileName user_id conversation_id))
    | none => (false, store)

end ConversationStorage

namespace VectorSearch

/-- Modelled from the spec: the CatalogItem of spec §3 — the structured
read-only job-posting attributes the Weighted Ranker consults
(`app/services/vector_search.py` is not part of the repository
snapshot; only its callers in `app/api/endpoints/conversation.py`
are).  `recency` is the posting recency used for tie-breaking. -/
structure CatalogItem where
  id : String
  category : String
  skills : List String
  industry : String
  company_type : String
  location : String
  employment_type : String
  remote : Option Bool
  salary_min : Option Int
  salary_max : Option Int
  recency : Nat
deriving DecidableEq, Repr

/-- Modelled from the spec: the RecommendationResult of spec §3 —
`(item_id, score, rank)`. -/
structure RecommendationResult where
  item_id : String
  score : ℚ
  rank : Nat
deriving DecidableEq, Repr

/-- Modelled from the spec: step 3 of the Weighted Ranker (spec §4.5) —
an item is excluded when any exclusion facet term matches its
category / skills / industry / company-type attributes by a
case-insensitive substring or set-membership match. -/
def excludedItem (p : Preferences) (j : CatalogItem) : Bool :=
  p.excluded_job_categories.any (fun t => containsCI j.category t)
    || p.excluded_skills.any (fun t => j.skills.any (fun s => containsCI s t))
    || p.excluded_industries.any (fun t => containsCI j.industry t)
    || p.excluded_company_types.any (fun t => containsCI j.company_type t)

/-- Modelled from the spec: the profile has a non-empty exclusion facet. -/
def hasExclusions (p : Preferences) : Bool :=
  !p.excluded_job_categories.isEmpty
    || !p.excluded_skills.isEmpty
    || !p.excluded_industries.isEmpty
    || !p.excluded_company_types.isEmpty

/-- Modelled from the spec: the tunable boost configuration constants of
spec §4.5 step 4. -/
def LOCATION_BOOST : ℚ := 10

/-- Modelled from the spec: boost for an employment-type match. -/
def EMPLOYMENT_TYPE_BOOST : ℚ := 5

/-- Modelled from the spec: boost for a remote-flag match. -/
def REMOTE_BOOST : ℚ := 5

/-- Modelled from the spec: boost for a salary-range overlap. -/
def SALARY_BOOST : ℚ := 5

/-- Modelled from the spec: spec §4.5 step 4 — additive inclusion boosts
for location, employment type, remote flag and salary-range overlap; an
unspecified preference contributes no boost and no penalty. -/
def boostScore (p : Preferences) (j : CatalogItem) : ℚ :=
  (if p.location.any (fun l => containsCI j.location l) then LOCATION_BOOST else 0)
    + (if p.employment_types.any (fun t => containsCI j.employment_type t) then
        EMPLOYMENT_TYPE_BOOST else 0)
    + (match p.remote_work, j.remote with
       | some want, some has => if want = has then REMOTE_BOOST else 0
       | _, _ => 0)
    + (if (p.salary_min.isSome || p.salary_max.isSome)
          && (match p.salary_min, j.salary_max with
              | some lo, some hi => decide (lo ≤ hi)
              | _, _ => true)
          && (match p.salary_max, j.salary_min with
              | some hi, some lo => decide (lo ≤ hi)
              | _, _ => true) then SALARY_BOOST else 0)

/-- Modelled from the spec: spec §4.5 step 2 — the cosine similarity in
`[-1, 1]` rescaled to `[0, 100]`. -/
def rescaleScore (cos : ℚ) : ℚ :=
  (cos + 1) * 50

/-- Modelled from the spec: spec §4.5 step 5 — clamp the final score to
`[0, 100]`. -/
def clampScore (s : ℚ) : ℚ :=
  max 0 (min 100 s)

/-- Modelled from the spec: spec §4.5 step 6 ordering — descending by
score, ties broken by posting recency (more recent first) then by item
identifier. -/
def rankLE (a b : CatalogItem × ℚ) : Bool :=
  if a.2 = b.2 then
    if a.1.recency = b.1.recency then a.1.id ≤ b.1.id
    else b.1.recency ≤ a.1.recency
  else decide (b.2 ≤ a.2)

/-- Attach 1-based ranks to the sorted, truncated score list. -/
def attachRanks : Nat → List (CatalogItem × ℚ) → List RecommendationResult
  | _, [] => []
  | n, (j, s) :: rest => ⟨j.id, s, n⟩ :: attachRanks (n + 1) rest

/-- Modelled from the spec: `VectorSearchService.weighted_search`
(spec §4.5), with the per-item cosine similarity against the query
vector abstracted as the oracle `sim` (the claims quantify over it, so
nothing is assumed about the embedding geometry): hard exclusion
filter, rescaled similarity plus additive boosts, clamp, deterministic
sort, truncation to `top_k`, 1-based ranks. -/
def weighted_search (sim : CatalogItem → ℚ) (p : Preferences)
    (catalog : List CatalogItem) (top_k : Nat) : List RecommendationResult :=
  let survivors := catalog.filter (fun j => !excludedItem p j)
  let scored := survivors.map (fun j => (j, clampScore (rescaleScore (sim j) + boostScore p j)))
  let ranked := sortLE rankLE scored
  attachRanks 1 (ranked.take top_k)

end VectorSearch

namespace ConversationEndpoint

open ConversationStorage
open VectorSearch

/-- The request body of the `/chat` endpoint
(`app/api/endpoints/conversation.py`, `ChatRequest`). -/
structure ChatRequest where
  user_id : String
  message : String
  conversation_id : Option String
deriving DecidableEq, Repr

/-- The response body of the `/chat` endpoint
(`app/api/endpoints/conversation.py`, `ChatResponse`). -/
structure ChatResponse where
  conversation_id : String
  message : String
  recommendations : Option (List RecommendationResult)
deriving DecidableEq, Repr

/-- Line 60 of `app/api/endpoints/conversation.py`:
`request.conversation_id or str(uuid.uuid4())` — Python `or` falls back
to the fresh id when `conversation_id` is `None` or the empty string. -/
def requestConvId (req : ChatRequest) (freshId : String) : String :=
  match req.conversation_id with
  | none => freshId
  | some s => if s = "" then freshId else s

/-- Line 63: `storage.load_conversation(request.user_id, conversation_id)`. -/
def loadedConversation (loadFault : Bool) (store : FileStore)
    (req : ChatRequest) (freshId : String) : Option Conversation :=
  load_conversation loadFault store req.user_id (requestConvId req freshId)

/-- Lines 65-68: the loaded message history, empty when no conversation
was found. -/
def priorMessages (loadFault : Bool) (store : FileStore)
    (req : ChatRequest) (freshId : String) : List ChatMessage :=
  match loadedConversation loadFault store req freshId with
  | some c => c.messages
  | none => []

/-- Lines 70-74: the history with this turn's user message appended. -/
def turnMessages (loadFault : Bool) (store : FileStore)
    (req : ChatRequest) (freshId : String) : List ChatMessage :=
  priorMessages loadFault store req freshId ++ [⟨"user", req.message⟩]

/-- Lines 90-92: the `created_at` metadata passed to
`save_conversation` — the loaded conversation's `created_at` when one
exists, the clock otherwise. -/
def chatMetaCreated (loadFault : Bool) (store : FileStore)
    (req : ChatRequest) (freshId now : String) : Option String :=
  match loadedConversation loadFault store req freshId with
  | some c => c.created_at
  | none => some now

/-- `_search_jobs_by_preferences`
(`app/api/endpoints/conversation.py`, lines 249-287): the body —
query-embedding creation, embedding lookup and `weighted_search` — is
abstracted as the oracle `searchCore`; the surrounding `except` clause
turns any raised error into the empty result list. -/
def search_jobs_by_preferences
    (searchCore : Preferences → Except ServiceErr (List RecommendationResult))
    (preferences : Preferences) : List RecommendationResult :=
  match searchCore preferences with
  | Except.ok results => results
  | Except.error _ => []

/-- `_extract_and_search_jobs`
(`app/api/endpoints/conversation.py`, lines 225-246):
`extract_job_preferences` (an OpenAI call, abstracted as the oracle
`extract`) applied to the whole accumulated message list, then the job
search; the `except` clause turns any raised error into the empty
result list. -/
def extract_and_search_jobs
    (extract : List ChatMessage → Except ServiceErr Preferences)
    (searchCore : Preferences → Except ServiceErr (List RecommendationResult))
    (messages : List ChatMessage) : List RecommendationResult :=
  match extract messages with
  | Except.error _ => []
  | Except.ok preferences => search_jobs_by_preferences searchCore preferences

/-- The `/chat` turn handler (`app/api/endpoints/conversation.py`,
lines 45-116).  Oracles: `genReply` is
`openai_service.generate_chat_response`, `extract` is
`openai_service.extract_job_preferences`, `searchCore` the body of
`_search_jobs_by_preferences`; `loadFault` / `saveFault` inject I/O
failures into the storage calls; `freshId` is `str(uuid.uuid4())` and
`now` the clock.  An `Except.error` result is the outer `except`
clause's `HTTPException(status_code=500)` path; `Except.ok` carries the
`ChatResponse` together with the storage state after the turn. -/
def chat (genReply : List ChatMessage → Except ServiceErr String)
    (extract : List ChatMessage → Except ServiceErr Preferences)
    (searchCore : Preferences → Except ServiceErr (List RecommendationResult))
    (loadFault : Bool) (saveFault : Option ServiceErr)
    (store : FileStore) (req : ChatRequest) (freshId now : String) :
    Except ServiceErr (ChatResponse × FileStore) :=
  match genReply (turnMessages loadFault store req freshId) with
  | Except.error e => Except.error e
  | Except.ok ai_response =>
    match save_conversation saveFault store req.user_id (requestConvId req freshId)
        (turnMessages loadFault store req freshId ++ [⟨"assistant", ai_response⟩])
        (some ⟨chatMetaCreated loadFault store req freshId now⟩) now with
    | Except.error e => Except.error e
    | Except.ok store2 =>
      Except.ok
        ({ conversation_id := requestConvId req freshId
           message := ai_response
           recommendations :=
             if 6 ≤ (turnMessages loadFault store req freshId
                 ++ [(⟨"assistant", ai_response⟩ : ChatMessage)]).length then
               some (extract_and_search_jobs extract searchCore
                 (turnMessages loadFault store req freshId
                   ++ [⟨"assistant", ai_response⟩]))
             else none }, store2)

end ConversationEndpoint

open OpenAIService ConversationStorage VectorSearch ConversationEndpoint

/-! Concrete sample data used by the closed-form corollaries below. -/

/-- A sample embedding provider that knows one text. -/
def demoProviderOK : String → Except ServiceErr (List ℚ) :=
  fun t => if t = "python" then Except.ok [1, 0, 0] else Except.ok [5]

/-- A sample embedding provider that always fails. -/
def demoProviderFail : String → Except ServiceErr (List ℚ) :=
  fun _ => Except.error (ServiceErr.openAIErr "rate limit")

/-- A profile with every facet unspecified. -/
def demoEmptyPrefs : Preferences := {}

/-- A similarity oracle giving the excluded item perfect alignment. -/
def demoSim : CatalogItem → ℚ :=
  fun jb => if jb.id = "B" then 1 else 0

/-- A profile excluding the category term `"sales"` and including the
location `"東京"` (the spec §8 scenario). -/
def demoExclPrefs : Preferences :=
  { location := ["東京"], excluded_job_categories := ["sales"] }

/-- Scenario catalog item A: exclusion-free engineer. -/
def demoItemA : CatalogItem :=
  ⟨"A", "engineer", ["python"], "IT", "startup", "大阪", "full-time", none, none, none, 3⟩

/-- Scenario catalog item B: a sales role. -/
def demoItemB : CatalogItem :=
  ⟨"B", "Sales", [], "IT", "startup", "東京", "full-time", none, none, none, 2⟩

/-- Scenario catalog item C: an engineer role in the included location. -/
def demoItemC : CatalogItem :=
  ⟨"C", "engineer", ["go"], "IT", "startup", "東京", "full-time", none, none, none, 1⟩

/-- The three-item scenario catalog of spec §8. -/
def demoCatalog : List CatalogItem := [demoItemA, demoItemB, demoItemC]

/-- A reply generator that always answers `"reply"`. -/
def demoGenReply : List ChatMessage → Except ServiceErr String :=
  fun _ => Except.ok "reply"

/-- A preference extractor that succeeds with the empty profile. -/
def demoExtractOK : List ChatMessage → Except ServiceErr Preferences :=
  fun _ => Except.ok {}

/-- A preference extractor whose provider output is malformed. -/
def demoExtractFail : List ChatMessage → Except ServiceErr Preferences :=
  fun _ => Except.error (ServiceErr.openAIErr "malformed json")

/-- A search core that succeeds with no results. -/
def demoSearchOK : Preferences → Except ServiceErr (List RecommendationResult) :=
  fun _ => Except.ok []

/-- A search core that always raises. -/
def demoSearchFail : Preferences → Except ServiceErr (List RecommendationResult) :=
  fun _ => Except.error (ServiceErr.storageErr "embeddings unreadable")

/-- A first-contact chat request (no conversation id). -/
def demoReqNew : ChatRequest := ⟨"u", "hello", none⟩

/-- A follow-up chat request on conversation `"c"`. -/
def demoReqCont : ChatRequest := ⟨"u", "third question", some "c"⟩

/-- A stored conversation holding four turns (two exchanges). -/
def demoPriorConv : Conversation :=
  ⟨"u", "c",
    [⟨"user", "m1"⟩, ⟨"assistant", "r1"⟩, ⟨"user", "m2"⟩, ⟨"assistant", "r2"⟩],
    some "t0", "t0"⟩

/-- A store holding `demoPriorConv` under its conversation file name. -/
def demoStore : FileStore := [(convFileName "u" "c", demoPriorConv)]

/-! Helper lemmas about the list operations of the embedding. -/

/-- Membership in an `insertLE` insertion. -/
theorem mem_insertLE {α : Type} {le : α → α → Bool} {x a : α} {l : List α} :
    a ∈ insertLE le x l ↔ a = x ∨ a ∈ l := by
  induction l with
  | nil => simp [insertLE]
  | cons y ys ih =>
    by_cases h : le x y
    · simp [insertLE, h]
    · simp [insertLE, h, ih]
      tauto

/-- `sortLE` is membership-preserving. -/
theorem mem_sortLE {α : Type} {le : α → α → Bool} {a : α} {l : List α} :
    a ∈ sortLE le l ↔ a ∈ l := by
  induction l with
  | nil => simp [sortLE]
  | cons x xs ih => simp [sortLE, mem_insertLE, ih]

/-- Every ranked result comes from an entry of the scored list. -/
theorem mem_attachRanks {n : Nat} {l : List (CatalogItem × ℚ)}
    {r : RecommendationResult} (h : r ∈ attachRanks n l) :
    ∃ js ∈ l, r.item_id = js.1.id := by
  induction l generalizing n with
  | nil => simp [attachRanks] at h
  | cons js rest ih =>
    obtain ⟨jj, ss⟩ := js
    simp only [attachRanks, List.mem_cons] at h
    rcases h with h | h
    · exact ⟨(jj, ss), List.mem_cons_self _ _, by simp [h]⟩
    · obtain ⟨js', hmem, hid⟩ := ih h
      exact ⟨js', List.mem_cons_of_mem _ hmem, hid⟩

/-- `lookupFile` after `writeFile`: the written path now holds the new
conversation, every other path is unchanged. -/
theorem lookupFile_writeFile (store : FileStore) (path q : String)
    (c : ConversationStorage.Conversation) :
    lookupFile (writeFile store path c) q
      = if q = path then some c else lookupFile store q := by
  induction store with
  | nil =>
    simp only [writeFile, lookupFile]
    by_cases h : q = path
    · subst h
      simp
    · rw [if_neg (fun hh => h hh.symm), if_neg h]
  | cons e rest ih =>
    obtain ⟨p, c0⟩ := e
    by_cases hp : p = path <;> by_cases hq : p = q <;>
      simp_all [writeFile, lookupFile, eq_comm]

/-! The claims. -/

/-- C1: for every query vector (here: every per-item similarity oracle),
preference profile, catalog and `top_k > 0`, if the profile has a
non-empty exclusion facet then no catalog item matching a term of that
facet (case-insensitive substring / set-membership match on its
category, skills, industry or company-type attributes) appears anywhere
in the sequence returned by `weighted_search`, regardless of the item's
cosine similarity to the query vector. -/
theorem C1_exclusion_absolute (sim : CatalogItem → ℚ) (p : Preferences)
    (catalog : List CatalogItem) (top_k : Nat) (j : CatalogItem)
    (_hk : 0 < top_k) (_hex : hasExclusions p = true)
    (hids : (catalog.map CatalogItem.id).Nodup)
    (hj : j ∈ catalog) (hmatch : excludedItem p j = true) :
    j.id ∉ (weighted_search sim p catalog top_k).map RecommendationResult.item_id := by
  intro hmem
  obtain ⟨r, hr, hrid⟩ := List.mem_map.mp hmem
  simp only [weighted_search] at hr
  obtain ⟨js, hjs, hjsid⟩ := mem_attachRanks hr
  have hjs' := List.take_subset _ _ hjs
  rw [mem_sortLE] at hjs'
  obtain ⟨j', hj', hjq⟩ := List.mem_map.mp hjs'
  rw [List.mem_filter] at hj'
  obtain ⟨hj'cat, hj'keep⟩ := hj'
  have hid : j'.id = j.id := by
    have hfst : js.1 = j' := by rw [← hjq]
    rw [← hrid, hjsid, hfst]
  have hjj : j' = j := List.inj_on_of_nodup_map hids hj'cat hj hid
  subst hjj
  rw [hmatch] at hj'keep
  simp at hj'keep

/-- C1 witness: spec §8 scenario — the sales item B has perfect
similarity under `demoSim` yet never appears in the ranked output. -/
theorem C1_exclusion_absolute_witness :
    0 < 10 ∧ hasExclusions demoExclPrefs = true
      ∧ excludedItem demoExclPrefs demoItemB = true
      ∧ "B" ∉ (weighted_search demoSim demoExclPrefs demoCatalog 10).map
          RecommendationResult.item_id :=
  ⟨by decide, by decide, by decide,
    C1_exclusion_absolute demoSim demoExclPrefs demoCatalog 10 demoItemB
      (by decide) (by decide) (by decide) (by decide) (by decide)⟩

/-- C2: on a successful turn, preference extraction and job search are
attempted exactly when the transcript length after appending this
turn's user/assistant pair is at least 6: below 6 the recommendations
stay `none` and the handler's result does not depend on the extraction
or search oracles at all, and at 6 or more each trigger hands the
entire accumulated message list to the extractor. -/
theorem C2_extraction_threshold
    (genReply : List ChatMessage → Except ServiceErr String)
    (extract : List ChatMessage → Except ServiceErr Preferences)
    (searchCore : Preferences → Except ServiceErr (List RecommendationResult))
    (extract' : List ChatMessage → Except ServiceErr Preferences)
    (searchCore' : Preferences → Except ServiceErr (List RecommendationResult))
    (loadFault : Bool) (store : FileStore) (req : ChatRequest)
    (freshId now : String) (r : String)
    (h : genReply (turnMessages loadFault store req freshId) = Except.ok r) :
    (chat genReply extract searchCore loadFault none store req freshId now).map
        (fun x => x.1.recommendations)
      = Except.ok (if 6 ≤ (turnMessages loadFault store req freshId).length + 1 then
          some (extract_and_search_jobs extract searchCore
            (turnMessages loadFault store req freshId ++ [⟨"assistant", r⟩]))
        else none)
    ∧ (¬ 6 ≤ (turnMessages loadFault store req freshId).length + 1 →
        chat genReply extract searchCore loadFault none store req freshId now
          = chat genReply extract' searchCore' loadFault none store req freshId now) := by
  constructor
  · simp [chat, h, save_conversation, Except.map]
  · intro hlt
    simp [chat, h, save_conversation, hlt]

/-- C2 witness: a stored transcript of four turns reaches exactly six
turns on this turn, and extraction triggers with the full message
list. -/
theorem C2_extraction_threshold_witness :
    demoGenReply (turnMessages false demoStore demoReqCont "f") = Except.ok "reply"
    ∧ (chat demoGenReply demoExtractOK demoSearchOK false none demoStore demoReqCont "f"
        "t1").map (fun x => x.1.recommendations)
      = Except.ok (if 6 ≤ (turnMessages false demoStore demoReqCont "f").length + 1 then
          some (extract_and_search_jobs demoExtractOK demoSearchOK
            (turnMessages false demoStore demoReqCont "f" ++ [⟨"assistant", "reply"⟩]))
        else none) :=
  ⟨rfl,
    (C2_extraction_threshold demoGenReply demoExtractOK demoSearchOK demoExtractFail
      demoSearchFail false demoStore demoReqCont "f" "t1" "reply" rfl).1⟩

/-- C3 counterexample: the claim is false on the code — with an empty
store, a reply generator that succeeds, and a failing
`save_conversation`, the handler does not return the generated reply:
the exception propagates out of the `try` block and the request fails
(HTTP 500), even though the reply `"reply"` had been generated. -/
theorem C3_save_failure_counterexample :
    chat demoGenReply demoExtractOK demoSearchOK false
        (some (ServiceErr.otherErr "disk full")) [] demoReqNew "f" "t"
      = Except.error (ServiceErr.otherErr "disk full")
    ∧ demoGenReply (turnMessages false [] demoReqNew "f") = Except.ok "reply" :=
  ⟨rfl, rfl⟩

/-- C3 amended: when the transcript persistence fails after the reply
was generated, the chat handler does not return the reply; the
exception from `save_conversation` propagates unchanged, and the outer
`except` clause fails the whole request. -/
theorem C3_save_failure_propagates
    (genReply : List ChatMessage → Except ServiceErr String)
    (extract : List ChatMessage → Except ServiceErr Preferences)
    (searchCore : Preferences → Except ServiceErr (List RecommendationResult))
    (loadFault : Bool) (store : FileStore) (req : ChatRequest)
    (freshId now : String) (r : String) (e : ServiceErr)
    (h : genReply (turnMessages loadFault store req freshId) = Except.ok r) :
    chat genReply extract searchCore loadFault (some e) store req freshId now
      = Except.error e := by
  simp [chat, h, save_conversation]

/-- C3 amended witness: the concrete failing save of the
counterexample, derived through the amended theorem. -/
theorem C3_save_failure_propagates_witness :
    chat demoGenReply demoExtractOK demoSearchOK false
        (some (ServiceErr.otherErr "disk full")) demoStore demoReqCont "f" "t"
      = Except.error (ServiceErr.otherErr "disk full") :=
  C3_save_failure_propagates demoGenReply demoExtractOK demoSearchOK false demoStore
    demoReqCont "f" "t" "reply" (ServiceErr.otherErr "disk full") rfl

/-- C4: when the transcript has reached the extraction threshold and
the extraction or the job search raises, the turn still completes: the
reply is returned unchanged, the recommendations are the empty list,
and no exception from the extraction/search tail escapes. -/
theorem C4_extraction_failure_nonfatal
    (genReply : List ChatMessage → Except ServiceErr String)
    (extract : List ChatMessage → Except ServiceErr Preferences)
    (searchCore : Preferences → Except ServiceErr (List RecommendationResult))
    (loadFault : Bool) (store : FileStore) (req : ChatRequest)
    (freshId now : String) (r : String) (e e2 : ServiceErr) (prefs : Preferences)
    (h : genReply (turnMessages loadFault store req freshId) = Except.ok r)
    (hlen : 6 ≤ (turnMessages loadFault store req freshId).length + 1)
    (hfail : extract (turnMessages loadFault store req freshId ++ [⟨"assistant", r⟩])
        = Except.error e
      ∨ (extract (turnMessages loadFault store req freshId ++ [⟨"assistant", r⟩])
          = Except.ok prefs ∧ searchCore prefs = Except.error e2)) :
    (chat genReply extract searchCore loadFault none store req freshId now).map
        (fun x => (x.1.message, x.1.recommendations))
      = Except.ok (r, some []) := by
  rcases hfail with hfail | ⟨hok, hfail⟩
  · simp [chat, h, save_conversation, hlen, extract_and_search_jobs, hfail, Except.map]
  · simp [chat, h, save_conversation, hlen, extract_and_search_jobs, hok,
      search_jobs_by_preferences, hfail, Except.map]

/-- C4 witness: at the six-turn threshold with a malformed extractor
output, the turn still answers `"reply"` with empty recommendations. -/
theorem C4_extraction_failure_nonfatal_witness :
    demoGenReply (turnMessages false demoStore demoReqCont "f") = Except.ok "reply"
    ∧ 6 ≤ (turnMessages false demoStore demoReqCont "f").length + 1
    ∧ demoExtractFail (turnMessages false demoStore demoReqCont "f"
        ++ [⟨"assistant", "reply"⟩]) = Except.error (ServiceErr.openAIErr "malformed json")
    ∧ (chat demoGenReply demoExtractFail demoSearchOK false none demoStore demoReqCont
        "f" "t1").map (fun x => (x.1.message, x.1.recommendations))
      = Except.ok ("reply", some []) :=
  ⟨rfl, by decide,
    rfl,
    C4_extraction_failure_nonfatal demoGenReply demoExtractFail demoSearchOK false
      demoStore demoReqCont "f" "t1" "reply" (ServiceErr.openAIErr "malformed json")
      (ServiceErr.openAIErr "malformed json") {} rfl (by decide) (Or.inl rfl)⟩

/-- Appending under a conditional: pull the accumulator out of the
branches. -/
theorem ite_append_acc {c : Prop} [Decidable c] (acc B : List String) :
    (if c then acc ++ B else acc) = acc ++ (if c then B else []) := by
  split <;> simp

/-- The duplicated high-priority list block matches its spec form. -/
theorem listBlockDupEq (label : String) (l : List String) :
    (if !l.isEmpty then
       [label ++ String.intercalate ", " l, String.intercalate ", " l] else [])
      = specListBlock label true l := by
  cases l <;> simp [specListBlock]

/-- The plain list block matches its spec form. -/
theorem listBlockOnceEq (label : String) (l : List String) :
    (if !l.isEmpty then [label ++ String.intercalate ", " l] else [])
      = specListBlock label false l := by
  cases l <;> simp [specListBlock]

/-- The optional scalar block matches its spec form. -/
theorem optBlockEq (label : String) (o : Option String) :
    (if truthyStrOpt o then [label ++ o.getD ""] else []) = specOptBlock label o := by
  cases o with
  | none => simp [truthyStrOpt, specOptBlock]
  | some s => by_cases h : s = "" <;> simp [truthyStrOpt, truthyStr, specOptBlock, h]

/-- The experience-years block matches its spec form. -/
theorem expBlockEq (o : Option Int) :
    (if truthyIntOpt o then [toString (o.getD 0) ++ "年の経験"] else [])
      = specExpBlock o := by
  cases o with
  | none => simp [truthyIntOpt, specExpBlock]
  | some n => by_cases h : n = 0 <;> simp [truthyIntOpt, specExpBlock, h]

/-- C5: the search-query text is built from inclusion facets only — it
is invariant under any change of the four exclusion facets — and its
fragment list equals the spec's ordered fragment list (job categories,
tech stack, skills, industry, career goal, work style, location,
company size, experience years, with the first three duplicated); when
no inclusion facet yields text the fixed non-empty fallback `"求人検索"`
is used, and the profile embedding is exactly the embedding of this
query text. -/
theorem C5_query_vectorizer (p : Preferences) (e1 e2 e3 e4 : List String)
    (provider : String → Except ServiceErr (List ℚ)) (dim : Nat) :
    create_search_query_text (setExclusions p e1 e2 e3 e4) = create_search_query_text p
    ∧ create_search_query_parts p = specQueryFragments p
    ∧ (create_search_query_parts p = [] → create_search_query_text p = "求人検索")
    ∧ ("求人検索" : String) ≠ ""
    ∧ create_search_query_embedding provider dim p
        = create_embedding provider dim (create_search_query_text p) := by
  refine ⟨rfl, ?_, ?_, by decide, rfl⟩
  · simp only [create_search_query_parts, specQueryFragments]
    simp only [ite_append_acc]
    simp only [listBlockDupEq, listBlockOnceEq, optBlockEq, expBlockEq]
    simp only [List.nil_append, List.append_assoc]
  · intro hparts
    simp only [create_search_query_text, hparts]
    decide

/-- C5 witness: the all-unspecified profile — exclusions contribute
nothing, the fragment lists agree, and the fallback string is
embedded. -/
theorem C5_query_vectorizer_witness :
    create_search_query_text (setExclusions demoEmptyPrefs ["営業"] ["PHP"] [] [])
        = create_search_query_text demoEmptyPrefs
    ∧ create_search_query_parts demoEmptyPrefs = specQueryFragments demoEmptyPrefs
    ∧ create_search_query_text demoEmptyPrefs = "求人検索"
    ∧ ("求人検索" : String) ≠ ""
    ∧ create_search_query_embedding demoProviderOK 3 demoEmptyPrefs
        = create_embedding demoProviderOK 3 (create_search_query_text demoEmptyPrefs) := by
  have h := C5_query_vectorizer demoEmptyPrefs ["営業"] ["PHP"] [] [] demoProviderOK 3
  exact ⟨h.1, h.2.1, h.2.2.1 rfl, h.2.2.2.1, h.2.2.2.2⟩

/-- C6 counterexample: the claim is false on the code — with a store
that does hold the conversation, an I/O failure makes
`load_conversation` return `None` (exactly the absent-conversation
observable) and `get_user_conversations` return the empty list (exactly
the no-conversations observable); neither failure is surfaced. -/
theorem C6_storage_error_counterexample :
    load_conversation true demoStore "u" "c" = none
    ∧ lookupFile demoStore (convFileName "u" "c") = some demoPriorConv
    ∧ get_user_conversations true demoStore "u" = [] := by
  refine ⟨rfl, ?_, rfl⟩
  decide

/-- C6 amended: `save_conversation` does surface its I/O failure by
re-raising it, but a read failure in `load_conversation` is swallowed
into `None` and one in `get_user_conversations` into the empty list —
both indistinguishable from the conversation being absent or the user
having no conversations. -/
theorem C6_storage_error_amended (store : FileStore) (user_id conversation_id : String)
    (messages : List ChatMessage) (metadata : Option ConversationStorage.MetaD)
    (now : String) (e : ServiceErr) :
    save_conversation (some e) store user_id conversation_id messages metadata now
        = Except.error e
    ∧ load_conversation true store user_id conversation_id = none
    ∧ get_user_conversations true store user_id = [] :=
  ⟨rfl, rfl, rfl⟩

/-- C7: saving a message list and loading it back under the same
`(user_id, conversation_id)` yields exactly the same turns in the same
order. -/
theorem C7_round_trip (store : FileStore) (user_id conversation_id : String)
    (messages : List ChatMessage) (metadata : Option ConversationStorage.MetaD)
    (now : String) (store' : FileStore)
    (h : save_conversation none store user_id conversation_id messages metadata now
      = Except.ok store') :
    (load_conversation false store' user_id conversation_id).map
        ConversationStorage.Conversation.messages
      = some messages := by
  rcases metadata with _ | m
  · have hred : save_conversation none store user_id conversation_id messages none now
        = Except.ok (writeFile store (convFileName user_id conversation_id)
          ⟨user_id, conversation_id, messages, some now, now⟩) := rfl
    rw [hred] at h
    injection h with hst
    rw [← hst]
    simp [load_conversation, lookupFile_writeFile]
  · have hred : save_conversation none store user_id conversation_id messages (some m) now
        = Except.ok (writeFile store (convFileName user_id conversation_id)
          ⟨user_id, conversation_id, messages, m.created_at, now⟩) := rfl
    rw [hred] at h
    injection h with hst
    rw [← hst]
    simp [load_conversation, lookupFile_writeFile]

/-- C7 witness: a one-turn transcript round-trips through an empty
store. -/
theorem C7_round_trip_witness :
    save_conversation none [] "u" "c" [⟨"user", "hi"⟩] none "t"
        = Except.ok [(convFileName "u" "c", ⟨"u", "c", [⟨"user", "hi"⟩], some "t", "t"⟩)]
    ∧ (load_conversation false
          [(convFileName "u" "c", ⟨"u", "c", [⟨"user", "hi"⟩], some "t", "t"⟩)]
          "u" "c").map ConversationStorage.Conversation.messages
        = some [⟨"user", "hi"⟩] :=
  ⟨rfl,
    C7_round_trip [] "u" "c" [⟨"user", "hi"⟩] none "t"
      [(convFileName "u" "c", ⟨"u", "c", [⟨"user", "hi"⟩], some "t", "t"⟩)] rfl⟩

/-- C8 counterexample: the claim is false on the code — a transcript
read that hits an I/O fault makes `load_conversation` return `None`,
so the turn still succeeds (HTTP 200 with the reply) but `chat` treats
the history as empty and the save overwrites the conversation file
with only this turn's two messages, destroying the four previously
stored turns instead of extending them. -/
theorem C8_turn_persistence_counterexample :
    chat demoGenReply demoExtractOK demoSearchOK true none demoStore demoReqCont "f" "t1"
      = Except.ok (⟨"c", "reply", none⟩,
          [(convFileName "u" "c",
            ⟨"u", "c", [⟨"user", "third question"⟩, ⟨"assistant", "reply"⟩],
              some "t1", "t1"⟩)])
    ∧ lookupFile demoStore (convFileName "u" "c") = some demoPriorConv
    ∧ demoPriorConv.messages.length = 4
    ∧ [(⟨"user", "third question"⟩ : ChatMessage), ⟨"assistant", "reply"⟩]
        ≠ demoPriorConv.messages
            ++ [⟨"user", "third question"⟩, ⟨"assistant", "reply"⟩] :=
  ⟨rfl, by decide, by decide, by decide⟩

/-- C8 amended: every successful chat turn persists exactly the old
store with this conversation's file overwritten by the message list
the turn *loaded* plus one user turn (the request message) and one
assistant turn (the returned reply), in that order — every other
stored file is untouched and nothing is deleted.  The loaded list
equals the previously stored turns only when the transcript read does
not hit an I/O fault; under a read fault it is empty, so the turn
succeeds but the previously stored turns are overwritten away. -/
theorem C8_turn_persistence_amended
    (genReply : List ChatMessage → Except ServiceErr String)
    (extract : List ChatMessage → Except ServiceErr Preferences)
    (searchCore : Preferences → Except ServiceErr (List RecommendationResult))
    (loadFault : Bool) (saveFault : Option ServiceErr) (store : FileStore)
    (req : ChatRequest) (freshId now : String) (res : ChatResponse) (store' : FileStore)
    (h : chat genReply extract searchCore loadFault saveFault store req freshId now
      = Except.ok (res, store')) :
    store' = writeFile store (convFileName req.user_id (requestConvId req freshId))
      { user_id := req.user_id
        conversation_id := requestConvId req freshId
        messages := priorMessages loadFault store req freshId
          ++ [⟨"user", req.message⟩, ⟨"assistant", res.message⟩]
        created_at := chatMetaCreated loadFault store req freshId now
        updated_at := now } := by
  rcases hgen : genReply (turnMessages loadFault store req freshId) with e | r
  · rw [chat, hgen] at h
    exact absurd h (by simp)
  · rcases saveFault with _ | e
    · rw [chat, hgen] at h
      simp only [save_conversation, Except.ok.injEq, Prod.mk.injEq] at h
      obtain ⟨hres, hst⟩ := h
      subst hst
      rw [← hres]
      simp [turnMessages, List.append_assoc]
    · rw [chat, hgen] at h
      exact absurd h (by simp [save_conversation])

/-- C8 amended witness: the read-fault turn of the counterexample,
derived through the amended theorem — the persisted file is the loaded
(empty) history plus the two new turns. -/
theorem C8_turn_persistence_amended_witness :
    chat demoGenReply demoExtractOK demoSearchOK true none demoStore demoReqCont "f" "t1"
        = Except.ok (⟨"c", "reply", none⟩,
            [(convFileName "u" "c",
              ⟨"u", "c", [⟨"user", "third question"⟩, ⟨"assistant", "reply"⟩],
                some "t1", "t1"⟩)])
    ∧ [(convFileName "u" "c",
          ⟨"u", "c", [⟨"user", "third question"⟩, ⟨"assistant", "reply"⟩],
            some "t1", "t1"⟩)]
        = writeFile demoStore (convFileName "u" (requestConvId demoReqCont "f"))
          { user_id := "u"
            conversation_id := requestConvId demoReqCont "f"
            messages := priorMessages true demoStore demoReqCont "f"
              ++ [⟨"user", "third question"⟩, ⟨"assistant", "reply"⟩]
            created_at := chatMetaCreated true demoStore demoReqCont "f" "t1"
            updated_at := "t1" } :=
  ⟨rfl,
    C8_turn_persistence_amended demoGenReply demoExtractOK demoSearchOK true none
      demoStore demoReqCont "f" "t1" ⟨"c", "reply", none⟩
      [(convFileName "u" "c",
        ⟨"u", "c", [⟨"user", "third question"⟩, ⟨"assistant", "reply"⟩],
          some "t1", "t1"⟩)] rfl⟩

/-- C9: `create_embedding` answers an empty or whitespace-only text
with a zero vector of exactly `embedding_dimension` entries without
consulting the provider (the result is the same for every provider);
for any other text the provider's vector is returned on success, and a
provider failure is re-raised as an `OpenAIError` rather than answered
with a default vector. -/
theorem C9_create_embedding
    (provider provider' : String → Except ServiceErr (List ℚ))
    (dim : Nat) (text : String) (v : List ℚ) (e : ServiceErr) :
    (text.data.all Char.isWhitespace = true →
      create_embedding provider dim text = Except.ok (List.replicate dim 0)
      ∧ (List.replicate dim (0 : ℚ)).length = dim
      ∧ create_embedding provider dim text = create_embedding provider' dim text)
    ∧ (text.data.all Char.isWhitespace = false → provider text = Except.ok v →
      create_embedding provider dim text = Except.ok v)
    ∧ (text.data.all Char.isWhitespace = false → provider text = Except.error e →
      create_embedding provider dim text
        = Except.error (ServiceErr.openAIErr "Failed to create embedding")) := by
  refine ⟨fun hb => ⟨?_, List.length_replicate _ _, ?_⟩, fun hb hp => ?_, fun hb hp => ?_⟩
  · simp [create_embedding, hb]
  · simp [create_embedding, hb]
  · simp [create_embedding, hb, hp]
  · simp [create_embedding, hb, hp]

/-- C9 witness: a whitespace-only text gets the zero vector from both
providers, a real text gets the provider vector, and a provider failure
surfaces as an `OpenAIError`. -/
theorem C9_create_embedding_witness :
    create_embedding demoProviderOK 3 " \t " = Except.ok [0, 0, 0]
    ∧ create_embedding demoProviderOK 3 " \t " = create_embedding demoProviderFail 3 " \t "
    ∧ create_embedding demoProviderOK 3 "python" = Except.ok [1, 0, 0]
    ∧ create_embedding demoProviderFail 3 "python"
        = Except.error (ServiceErr.openAIErr "Failed to create embedding") :=
  ⟨((C9_create_embedding demoProviderOK demoProviderFail 3 " \t " [1, 0, 0]
      (ServiceErr.openAIErr "rate limit")).1 (by decide)).1,
    ((C9_create_embedding demoProviderOK demoProviderFail 3 " \t " [1, 0, 0]
      (ServiceErr.openAIErr "rate limit")).1 (by decide)).2.2,
    (C9_create_embedding demoProviderOK demoProviderFail 3 "python" [1, 0, 0]
      (ServiceErr.openAIErr "rate limit")).2.1 (by decide) rfl,
    (C9_create_embedding demoProviderFail demoProviderOK 3 "python" [1, 0, 0]
      (ServiceErr.openAIErr "rate limit")).2.2 (by decide) rfl⟩

/-- C10: `delete_conversation` is total (the method catches every
exception) and returns `True` exactly when the transcript file existed
and no I/O error occurred — in which case the file is removed — while
an absent transcript and an I/O error during deletion both yield
`False` with the store unchanged. -/
theorem C10_delete_conversation_total (fault : Bool) (store : FileStore)
    (user_id conversation_id : String) :
    (delete_conversation fault store user_id conversation_id).1
        = (!fault && (lookupFile store (convFileName user_id conversation_id)).isSome)
    ∧ (delete_conversation fault store user_id conversation_id).2
        = (if (delete_conversation fault store user_id conversation_id).1 then
            removeFile store (convFileName user_id conversation_id)
          else store) := by
  cases fault
  · rcases hl : lookupFile store (convFileName user_id conversation_id) with _ | c <;>
      simp [delete_conversation, hl]
  · simp [delete_conversation]

end JobMatching
